import Mathlib

/-!
Verification of the `nx` Blender add-on stub
(`src/scripts/addons_core/nx/__init__.py`).

The module declares a metadata dictionary `bl_info` and two lifecycle
callbacks, `register` and `unregister`, whose only effect is printing one
line each. We embed the module as a state-passing model: the state carries
the descriptor record, the output stream is a list of printed lines, and a
call that could raise returns `Except String`.
-/

namespace NxBlender

/-- One `print(line)` call: appends one line to the output stream. -/
def printLine (line : String) (out : List String) : List String :=
  out ++ [line]

/-- The shape of the `bl_info` dictionary.  Integer-tuple entries are kept
as `List Int` so that well-formedness (length three, non-negative) is a
genuine statement rather than a consequence of the type. -/
structure BlInfo where
  name : String
  author : String
  version : List Int
  blender : List Int
  location : String
  description : String
  warning : String
  doc_url : String
  support : String
  category : String
deriving DecidableEq, Repr

/-- The `bl_info` dictionary literal of the source module. -/
def bl_info : BlInfo :=
  { name := "Nx::Blender"
    author := "Hardronix"
    version := [0, 0, 1]
    blender := [4, 2, 0]
    location := "Global"
    description := "NX features support"
    warning := ""
    doc_url := ""
    support := "OFFICIAL"
    category := "Global" }

/-- The module-level state visible to the two callbacks: only the
descriptor record exists; the source declares no other mutable value. -/
structure PluginState where
  info : BlInfo
deriving DecidableEq

/-- The state right after the module is loaded. -/
def initState : PluginState := ⟨bl_info⟩

/-- `def register() -> None: print("NX init!")`.  The call takes the
current module state and output stream and returns the new ones, with
`Except.error` standing for a raised exception (the body cannot raise). -/
def register (s : PluginState) (out : List String) :
    Except String (PluginState × List String) :=
  Except.ok (s, printLine "NX init!" out)

/-- `def unregister() -> None: print("NX uninit!")`. -/
def unregister (s : PluginState) (out : List String) :
    Except String (PluginState × List String) :=
  Except.ok (s, printLine "NX uninit!" out)

/-- The two operations the host may invoke. -/
inductive Call where
  | register
  | unregister
deriving DecidableEq, Repr

/-- Dispatch one host invocation. -/
def runCall : Call → PluginState → List String →
    Except String (PluginState × List String)
  | Call.register => register
  | Call.unregister => unregister

/-- Run a finite sequence of host invocations, stopping at the first
raised exception. -/
def runSeq : List Call → PluginState → List String →
    Except String (PluginState × List String)
  | [], s, out => Except.ok (s, out)
  | c :: cs, s, out =>
      match runCall c s out with
      | Except.ok (s', out') => runSeq cs s' out'
      | Except.error e => Except.error e

/-- The marker line each call prints. -/
def marker : Call → String
  | Call.register => "NX init!"
  | Call.unregister => "NX uninit!"

/-- The lines a single call appends to the stream `out`, empty if the call
raises. -/
def emitted (c : Call) (s : PluginState) (out : List String) : List String :=
  match runCall c s out with
  | Except.ok (_, out') => out'.drop out.length
  | Except.error _ => []

/-- Key lemma: any invocation sequence succeeds, leaves the state
untouched and appends exactly the marker of each call, in order. -/
theorem runSeq_ok (cs : List Call) (s : PluginState) (out : List String) :
    runSeq cs s out = Except.ok (s, out ++ cs.map marker) := by
  induction cs generalizing out with
  | nil => simp [runSeq]
  | cons c cs ih =>
      cases c <;>
        simp [runSeq, runCall, register, unregister, printLine, ih, marker]

theorem runCall_ok (c : Call) (s : PluginState) (out : List String) :
    runCall c s out = Except.ok (s, out ++ [marker c]) := by
  cases c <;> rfl

theorem emitted_eq_marker (c : Call) (s : PluginState) (out : List String) :
    emitted c s out = [marker c] := by
  simp [emitted, runCall_ok]

/-- C1: `register()` always succeeds without raising, appends exactly one
line to the output stream, that line contains (indeed equals) the literal
string "NX init!", and leaves the module state unchanged. -/
theorem C1_register_emits_init (s : PluginState) (out : List String) :
    register s out = Except.ok (s, out ++ ["NX init!"]) := rfl

/-- C2: `unregister()` always succeeds without raising, appends exactly
one line to the output stream, that line contains (indeed equals) the
literal string "NX uninit!", and leaves the module state unchanged. -/
theorem C2_unregister_emits_uninit (s : PluginState) (out : List String) :
    unregister s out = Except.ok (s, out ++ ["NX uninit!"]) := rfl

/-- C3: for every invocation sequence that begins with `register()`, a
subsequent `unregister()` call succeeds without raising and appends the
teardown marker line "NX uninit!". -/
theorem C3_unregister_after_register (cs : List Call) (s : PluginState)
    (out : List String) (hhead : cs.head? = some Call.register) :
    ∃ s' out', runSeq cs s out = Except.ok (s', out') ∧
      unregister s' out' = Except.ok (s', out' ++ ["NX uninit!"]) :=
  ⟨s, out ++ cs.map marker, runSeq_ok cs s out, rfl⟩

theorem C3_unregister_after_register_witness :
    ∃ s' out',
      runSeq [Call.register] initState [] = Except.ok (s', out') ∧
      unregister s' out' = Except.ok (s', out' ++ ["NX uninit!"]) :=
  C3_unregister_after_register [Call.register] initState [] rfl

/-- C4: no invocation sequence mutates the descriptor: whenever a
sequence of `register`/`unregister` calls from the load-time state
finishes in state `s'` with output `out'`, the descriptor in `s'` still
equals the load-time `bl_info`, and the only effect was appending the
marker lines. -/
theorem C4_descriptor_never_mutated (cs : List Call) (out : List String)
    (s' : PluginState) (out' : List String)
    (hrun : runSeq cs initState out = Except.ok (s', out')) :
    s'.info = bl_info ∧ out' = out ++ cs.map marker := by
  rw [runSeq_ok] at hrun
  simp only [Except.ok.injEq, Prod.mk.injEq] at hrun
  obtain ⟨h1, h2⟩ := hrun
  subst h1
  subst h2
  exact ⟨rfl, rfl⟩

theorem C4_descriptor_never_mutated_witness :
    initState.info = bl_info ∧
      (["prior", "NX init!", "NX uninit!", "NX init!"] : List String) =
        ["prior"] ++ [Call.register, Call.unregister, Call.register].map marker :=
  C4_descriptor_never_mutated
    [Call.register, Call.unregister, Call.register] ["prior"]
    initState ["prior", "NX init!", "NX uninit!", "NX init!"] (by rfl)

/-- C5: `bl_info["version"]` and `bl_info["blender"]` are each an ordered
tuple of exactly three non-negative integers. -/
theorem C5_version_triples :
    bl_info.version.length = 3 ∧ (∀ x ∈ bl_info.version, 0 ≤ x) ∧
    bl_info.blender.length = 3 ∧ (∀ x ∈ bl_info.blender, 0 ≤ x) := by
  decide

/-- C6: `bl_info["category"]` and `bl_info["location"]` both equal the
string "Global". -/
theorem C6_category_location_global :
    bl_info.category = "Global" ∧ bl_info.location = "Global" :=
  ⟨rfl, rfl⟩

/-- C7: calling `unregister()` from the load-time state with no prior
`register()` call succeeds without raising and emits the teardown marker
line; the source has no sequencing guard. -/
theorem C7_unregister_without_register :
    runSeq [Call.unregister] initState [] =
      Except.ok (initState, ["NX uninit!"]) := rfl

/-- C8: every finite invocation sequence over register/unregister, in any
order and with any repetitions, executes to completion without raising,
and each call appends exactly its own marker line regardless of the
history of prior calls. -/
theorem C8_any_sequence_completes (cs : List Call) (s : PluginState)
    (out : List String) :
    runSeq cs s out = Except.ok (s, out ++ cs.map marker) :=
  runSeq_ok cs s out

/-- C9: the two operations are deterministic and consult no environment:
two runs of the same operation, from arbitrary (possibly different)
states and output streams, emit identical lines. -/
theorem C9_deterministic (c : Call) (s₁ s₂ : PluginState)
    (out₁ out₂ : List String) :
    emitted c s₁ out₁ = emitted c s₂ out₂ := by
  rw [emitted_eq_marker, emitted_eq_marker]

/-- C10: `bl_info["warning"]` and `bl_info["doc_url"]` are both exactly
the empty string. -/
theorem C10_warning_docurl_empty :
    bl_info.warning = "" ∧ bl_info.doc_url = "" :=
  ⟨rfl, rfl⟩

end NxBlender
